import Mathlib

/-!
Verification development for the Image Compressor desktop utility
(`src/main.rs`).  The Rust source is shallowly embedded: filesystem paths
become lists of components, the external codec library and the filesystem
become an explicit environment of fallible functions, and the side effects
of `perform_compression` (opening the output file, invoking an encoder)
are recorded in an explicit trace so that claims about "no file is
created" become statements about the trace.
-/

/-- A filesystem path (`std::path::PathBuf`), modelled as its list of
components.  Components are assumed to be plain UTF-8 names (so Rust's
`OsStr::to_str` always succeeds on them); the special components `.` and
`..` are not distinguished. -/
structure RustPath where
  components : List String
deriving Repr, DecidableEq

/-- `Path::file_name`: the last component of the path, if any. -/
def RustPath.fileName (p : RustPath) : Option String :=
  p.components.getLast?

/-- The extension of a single file name, following the documented rule of
Rust's `Path::extension`: the portion after the final `.`; `none` when
there is no `.`, or when the only `.` is the leading character of the
name. -/
def extensionOfName (name : String) : Option String :=
  let cs := name.data
  let afterRev := cs.reverse.takeWhile (fun c => c ≠ '.')
  if cs.contains '.' then
    if afterRev.length + 1 == cs.length then
      none
    else
      some ⟨afterRev.reverse⟩
  else
    none

/-- `Path::extension` on the modelled path. -/
def RustPath.extension (p : RustPath) : Option String :=
  p.fileName.bind extensionOfName

/-- `str::to_lowercase`.  On the ASCII extension strings the program
compares against, Unicode lowercasing coincides with per-`Char`
lowercasing. -/
def toLowercase (s : String) : String :=
  ⟨s.data.map Char.toLower⟩

/-- `Path::display` rendered with `/` separators (Unix). -/
def RustPath.display (p : RustPath) : String :=
  String.intercalate "/" p.components

/-- `str::starts_with` for string patterns: the pattern's characters are
an initial segment of the string's characters. -/
def leadsWith : List Char → List Char → Bool
  | [], _ => true
  | _ :: _, [] => false
  | a :: as, b :: bs => a == b && leadsWith as bs

/-- Rust `s.starts_with(pat)`. -/
def starts_with (s pat : String) : Bool :=
  leadsWith pat.data s.data

/-- The subset of `image::ImageFormat` variants relevant here, plus
representative others so that the catch-all arm of the second `match` in
`perform_compression` is modelled faithfully. -/
inductive ImageFormat
  | Jpeg
  | Png
  | WebP
  | Gif
  | Bmp
  | Tiff
deriving Repr, DecidableEq

/-- One RGBA pixel with 8-bit channels. -/
structure Rgba where
  r : Nat
  g : Nat
  b : Nat
  a : Nat
deriving Repr, DecidableEq

/-- `image::DynamicImage`, restricted to three representative pixel
layouts; enough to make "converted to 8-bit RGBA" a real conversion. -/
inductive DynamicImage
  | luma8 (width height : Nat) (data : List Nat)
  | rgb8 (width height : Nat) (data : List (Nat × Nat × Nat))
  | rgba8 (width height : Nat) (data : List Rgba)
deriving Repr, DecidableEq

/-- An 8-bit RGBA image buffer (`image::RgbaImage`). -/
structure RgbaImage where
  width : Nat
  height : Nat
  data : List Rgba
deriving Repr, DecidableEq

/-- `DynamicImage::to_rgba8`: convert any layout to 8-bit RGBA
(grey replicated to the three channels, alpha filled with 255). -/
def DynamicImage.to_rgba8 : DynamicImage → RgbaImage
  | .luma8 w h d => ⟨w, h, d.map fun l => ⟨l, l, l, 255⟩⟩
  | .rgb8 w h d => ⟨w, h, d.map fun t => ⟨t.1, t.2.1, t.2.2, 255⟩⟩
  | .rgba8 w h d => ⟨w, h, d⟩

/-- `RgbaImage::dimensions`. -/
def RgbaImage.dimensions (img : RgbaImage) : Nat × Nat :=
  (img.width, img.height)

/-- `image::codecs::png::CompressionType`. -/
inductive CompressionType
  | Fast
  | Default
  | Best
deriving Repr, DecidableEq

/-- `image::codecs::png::FilterType`. -/
inductive FilterType
  | NoFilter
  | Sub
  | Up
  | Adaptive
deriving Repr, DecidableEq

/-- `image::ExtendedColorType` (only the variants the program can pass). -/
inductive ExtendedColorType
  | L8
  | Rgb8
  | Rgba8
deriving Repr, DecidableEq

/-- Everything the PNG encoder is invoked with in `save_png`. -/
structure PngInvocation where
  compression : CompressionType
  filter : FilterType
  data : List Rgba
  width : Nat
  height : Nat
  color : ExtendedColorType
deriving Repr, DecidableEq

/-- Everything the lossless WebP encoder is invoked with in
`save_webp_lossless`.  There is no quality field: `WebPEncoder` is
constructed with `new_lossless` and takes none. -/
structure WebpInvocation where
  data : List Rgba
  width : Nat
  height : Nat
  color : ExtendedColorType
deriving Repr, DecidableEq

/-- Observable side effects of the compression pipeline, in program
order: invoking `File::create` on the output path, and handing data to
one of the three encoders. -/
inductive Effect
  | createOutput (path : RustPath)
  | jpegEncode (img : DynamicImage) (quality : Nat)
  | pngWrite (inv : PngInvocation)
  | webpWrite (inv : WebpInvocation)
deriving Repr, DecidableEq

/-- The external collaborators: `image::open` (decode by path, format
auto-detected), `File::create`, and the three encoder back ends.  Each
returns `Except` with the error rendered as the string Rust's `Display`
would produce for it. -/
structure Env where
  openImage : RustPath → Except String DynamicImage
  createFile : RustPath → Except String Unit
  jpegBackend : DynamicImage → Nat → Except String Unit
  pngBackend : PngInvocation → Except String Unit
  webpBackend : WebpInvocation → Except String Unit

/-- `CompressionTask` (the spec's `CompressionRequest`). -/
structure CompressionTask where
  input_path : RustPath
  output_path : RustPath
  quality : Nat
deriving Repr, DecidableEq

/-- `save_jpeg`: create the output file, then run the JPEG encoder with
the image and the verbatim quality value. -/
def save_jpeg (env : Env) (img : DynamicImage) (path : RustPath)
    (quality : Nat) : Except String Unit × List Effect :=
  match env.createFile path with
  | .error e => (.error e, [.createOutput path])
  | .ok _ =>
    (env.jpegBackend img quality,
      [.createOutput path, .jpegEncode img quality])

/-- `save_png`: create the output file, map the quality value to a
compression level (`< 40` Fast, `< 80` Default, otherwise Best), convert
the image to RGBA8, and invoke the PNG encoder with adaptive filtering on
the converted buffer's dimensions. -/
def save_png (env : Env) (img : DynamicImage) (path : RustPath)
    (quality : Nat) : Except String Unit × List Effect :=
  match env.createFile path with
  | .error e => (.error e, [.createOutput path])
  | .ok _ =>
    let compression :=
      if quality < 40 then CompressionType.Fast
      else if quality < 80 then CompressionType.Default
      else CompressionType.Best
    let rgba := img.to_rgba8
    let dims := rgba.dimensions
    let inv : PngInvocation :=
      ⟨compression, FilterType.Adaptive, rgba.data, dims.1, dims.2,
        ExtendedColorType.Rgba8⟩
    (env.pngBackend inv, [.createOutput path, .pngWrite inv])

/-- `save_webp_lossless`: create the output file, convert the image to
RGBA8, and invoke the lossless WebP encoder.  No quality parameter
exists on this code path. -/
def save_webp_lossless (env : Env) (img : DynamicImage) (path : RustPath) :
    Except String Unit × List Effect :=
  match env.createFile path with
  | .error e => (.error e, [.createOutput path])
  | .ok _ =>
    let rgba := img.to_rgba8
    let dims := rgba.dimensions
    let inv : WebpInvocation :=
      ⟨rgba.data, dims.1, dims.2, ExtendedColorType.Rgba8⟩
    (env.webpBackend inv, [.createOutput path, .webpWrite inv])

/-- The first `match` of `perform_compression` (lines 198–210): lowercase
the output path's extension and map it to a format, `none` standing for
the early `return Err("Error: unsupported format. Use .jpg, .png, or
.webp")` of the catch-all arm. -/
def targetFormat (p : RustPath) : Option ImageFormat :=
  match (p.extension).map toLowercase with
  | none => none
  | some s =>
    if s = "jpg" ∨ s = "jpeg" then some ImageFormat.Jpeg
    else if s = "png" then some ImageFormat.Png
    else if s = "webp" then some ImageFormat.WebP
    else none

/-- The second `match` of `perform_compression` (lines 212–219):
dispatch on the format, `none` standing for the early
`return Err("Error: unsupported format")` of its catch-all arm. -/
def runSave (env : Env) (img : DynamicImage) (task : CompressionTask) :
    ImageFormat → Option (Except String Unit × List Effect)
  | .Jpeg => some (save_jpeg env img task.output_path task.quality)
  | .Png => some (save_png env img task.output_path task.quality)
  | .WebP => some (save_webp_lossless env img task.output_path)
  | _ => none

/-- `perform_compression` (lines 192–225), returning the outcome
together with the trace of effects it performed. -/
def perform_compression (env : Env) (task : CompressionTask) :
    Except String String × List Effect :=
  match env.openImage task.input_path with
  | .error e => (.error ("Error loading image: " ++ e), [])
  | .ok img =>
    match targetFormat task.output_path with
    | none =>
      (.error "Error: unsupported format. Use .jpg, .png, or .webp", [])
    | some fmt =>
      match runSave env img task fmt with
      | none => (.error "Error: unsupported format", [])
      | some (res, tr) =>
        match res with
        | .ok _ => (.ok ("Success: saved to " ++ task.output_path.display), tr)
        | .error e => (.error ("Error saving image: " ++ e), tr)

/-- The worker loop (lines 46–51): drain the request list in order,
running `perform_compression` on each and sending each outcome. -/
def workerRun (env : Env) (tasks : List CompressionTask) :
    List (Except String String) :=
  tasks.map fun t => (perform_compression env t).1

/-- The fields of `ImageCompressorApp` that make up the presentation
state (the channel endpoints are modelled by the event stream below). -/
structure UIState where
  input_path : Option RustPath
  output_path : Option RustPath
  quality : Nat
  status_message : String
  is_compressing : Bool
deriving Repr, DecidableEq

/-- `ImageCompressorApp::default` (lines 53–61). -/
def UIState.init : UIState :=
  ⟨none, none, 80, "Ready", false⟩

/-- One atomic user-visible interaction handled inside `update`:
receiving a worker outcome via `try_recv`, confirming one of the two
file dialogs, dragging the quality slider, or clicking Compress. -/
inductive UIEvent
  | pollResult (r : Except String String)
  | pickInput (p : RustPath)
  | pickOutput (p : RustPath)
  | setQuality (q : Int)
  | clickCompress
deriving Repr

/-- Modelled from the spec: the quality slider widget is provided by the
external UI toolkit (`egui::Slider::new(&mut self.quality, 1..=100)`,
line 136); the spec states that it "clamps at both ends" of the 1..=100
range.  The raw drag value is an integer clamped into [1, 100]. -/
def clampQuality (q : Int) : Nat :=
  (max 1 (min 100 q)).toNat

/-- The state transition each interaction performs inside `update`
(lines 66–188), together with the `CompressionTask`s sent on the request
channel.  The Compress click is guarded by `can_compress` (lines
148–150): `add_enabled` means a disabled button cannot report a click. -/
def UIState.step (s : UIState) : UIEvent → UIState × List CompressionTask
  | .pollResult r =>
    ({ s with
        is_compressing := false
        status_message := match r with | .ok m => m | .error e => e }, [])
  | .pickInput p =>
    ({ s with input_path := some p
              status_message := "Input file selected" }, [])
  | .pickOutput p =>
    ({ s with output_path := some p
              status_message := "Output file selected" }, [])
  | .setQuality q =>
    ({ s with quality := clampQuality q }, [])
  | .clickCompress =>
    if s.input_path.isSome && s.output_path.isSome && !s.is_compressing then
      match s.input_path, s.output_path with
      | some i, some o =>
        ({ s with
            is_compressing := true
            status_message := "Compressing..." },
          [⟨i, o, s.quality⟩])
      | _, _ => (s, [])
    else
      (s, [])

/-- Run a sequence of interactions from a state, discarding the sent
requests. -/
def UIState.run (s : UIState) (events : List UIEvent) : UIState :=
  events.foldl (fun st e => (st.step e).1) s

/-- `egui::Color32` restricted to the three colors the status line can
take. -/
inductive Color32
  | RED
  | GREEN
  | GRAY
deriving Repr, DecidableEq

/-- The status-line color computation (lines 173–179). -/
def statusColor (msg : String) : Color32 :=
  if starts_with msg "Error" then Color32.RED
  else if starts_with msg "Success" then Color32.GREEN
  else Color32.GRAY

/-! ## Shared concrete inputs for witnesses -/

/-- A small concrete decoded image. -/
def imgSample : DynamicImage :=
  DynamicImage.rgb8 2 1 [(1, 2, 3), (4, 5, 6)]

/-- An environment in which decoding, file creation and every encoder
succeed. -/
def envOk : Env :=
  { openImage := fun _ => .ok imgSample
    createFile := fun _ => .ok ()
    jpegBackend := fun _ _ => .ok ()
    pngBackend := fun _ => .ok ()
    webpBackend := fun _ => .ok () }

/-! ## Theorems -/

/-- C1.  The target format chosen by `perform_compression` is determined
solely by the lowercased extension of the output path — equal lowercased
extensions (indeed, equal final path components) give equal choices, and
the table is: `jpg`/`jpeg` ↦ JPEG, `png` ↦ PNG, `webp` ↦ WebP-lossless;
any other or missing extension makes `perform_compression` return
`Error: unsupported format. Use .jpg, .png, or .webp`. -/
theorem spec_C1 :
    (∀ p q : RustPath,
      (p.extension).map toLowercase = (q.extension).map toLowercase →
      targetFormat p = targetFormat q) ∧
    (∀ p q : RustPath, p.components.getLast? = q.components.getLast? →
      targetFormat p = targetFormat q) ∧
    (∀ p : RustPath,
      (((p.extension).map toLowercase = some "jpg" ∨
        (p.extension).map toLowercase = some "jpeg") →
        targetFormat p = some ImageFormat.Jpeg) ∧
      ((p.extension).map toLowercase = some "png" →
        targetFormat p = some ImageFormat.Png) ∧
      ((p.extension).map toLowercase = some "webp" →
        targetFormat p = some ImageFormat.WebP)) ∧
    (∀ p : RustPath, p.extension = none → targetFormat p = none) ∧
    (∀ (p : RustPath) (s : String),
      (p.extension).map toLowercase = some s →
      s ≠ "jpg" → s ≠ "jpeg" → s ≠ "png" → s ≠ "webp" →
      targetFormat p = none) ∧
    (∀ (env : Env) (task : CompressionTask) (img : DynamicImage),
      env.openImage task.input_path = .ok img →
      targetFormat task.output_path = none →
      perform_compression env task =
        (.error "Error: unsupported format. Use .jpg, .png, or .webp", [])) :=
  by
  refine ⟨?_, ?_, ?_, ?_, ?_, ?_⟩
  · intro p q h
    unfold targetFormat
    rw [h]
  · intro p q h
    unfold targetFormat RustPath.extension RustPath.fileName
    rw [h]
  · intro p
    refine ⟨?_, ?_, ?_⟩
    · rintro (h | h) <;> simp [targetFormat, h]
    · intro h; simp [targetFormat, h]
    · intro h; simp [targetFormat, h]
  · intro p h
    simp [targetFormat, h]
  · intro p s h h1 h2 h3 h4
    simp [targetFormat, h, h1, h2, h3, h4]
  · intro env task img hopen hfmt
    simp [perform_compression, hopen, hfmt]

/-- C1 witness: with a succeeding decoder, a `.gif` output path yields
exactly the unsupported-format outcome, and a `.JPG` output path selects
JPEG. -/
theorem spec_C1_witness :
    perform_compression envOk ⟨⟨["photo.png"]⟩, ⟨["photo.gif"]⟩, 80⟩ =
      (.error "Error: unsupported format. Use .jpg, .png, or .webp", []) ∧
    targetFormat ⟨["dir", "photo.JPG"]⟩ = some ImageFormat.Jpeg :=
  ⟨spec_C1.2.2.2.2.2 envOk ⟨⟨["photo.png"]⟩, ⟨["photo.gif"]⟩, 80⟩ imgSample
      rfl (by decide),
    (spec_C1.2.2.1 ⟨["dir", "photo.JPG"]⟩).1 (Or.inl (by decide))⟩

/-- C2.  When the output file opens, `save_png` invokes the PNG encoder
exactly once, with compression level Fast for `quality < 40`, Default
for `40 ≤ quality < 80`, Best for `quality ≥ 80`, always with adaptive
row-filtering, and with the pixel data, width and height of the image's
8-bit RGBA conversion. -/
theorem spec_C2 (env : Env) (img : DynamicImage) (path : RustPath)
    (q : Nat) (hlo : 1 ≤ q) (hhi : q ≤ 100)
    (hc : env.createFile path = .ok ()) :
    ∃ inv : PngInvocation,
      save_png env img path q =
        (env.pngBackend inv, [Effect.createOutput path, Effect.pngWrite inv]) ∧
      inv.filter = FilterType.Adaptive ∧
      inv.data = img.to_rgba8.data ∧
      inv.width = img.to_rgba8.width ∧
      inv.height = img.to_rgba8.height ∧
      inv.color = ExtendedColorType.Rgba8 ∧
      (q < 40 → inv.compression = CompressionType.Fast) ∧
      (40 ≤ q → q < 80 → inv.compression = CompressionType.Default) ∧
      (80 ≤ q → inv.compression = CompressionType.Best) := by
  refine ⟨⟨(if q < 40 then CompressionType.Fast
      else if q < 80 then CompressionType.Default
      else CompressionType.Best),
      FilterType.Adaptive, img.to_rgba8.data, img.to_rgba8.width,
      img.to_rgba8.height, ExtendedColorType.Rgba8⟩,
    ?_, rfl, rfl, rfl, rfl, rfl, ?_, ?_, ?_⟩
  · simp [save_png, hc, RgbaImage.dimensions]
  · intro h; rw [if_pos h]
  · intro h40 h80; rw [if_neg (by omega), if_pos h80]
  · intro h; rw [if_neg (by omega), if_neg (by omega)]

/-- C2 witness: at quality 85 the encoder is invoked with level Best,
adaptive filtering, and the RGBA8 conversion of the sample image. -/
theorem spec_C2_witness :
    1 ≤ 85 ∧ 85 ≤ 100 ∧
    (∃ inv : PngInvocation,
      save_png envOk imgSample ⟨["out.png"]⟩ 85 =
        (envOk.pngBackend inv,
          [Effect.createOutput ⟨["out.png"]⟩, Effect.pngWrite inv]) ∧
      inv.filter = FilterType.Adaptive ∧
      inv.data = imgSample.to_rgba8.data ∧
      inv.width = imgSample.to_rgba8.width ∧
      inv.height = imgSample.to_rgba8.height ∧
      inv.color = ExtendedColorType.Rgba8 ∧
      (85 < 40 → inv.compression = CompressionType.Fast) ∧
      (40 ≤ 85 → 85 < 80 → inv.compression = CompressionType.Default) ∧
      (80 ≤ 85 → inv.compression = CompressionType.Best)) :=
  ⟨by decide, by decide,
    spec_C2 envOk imgSample ⟨["out.png"]⟩ 85 (by decide) (by decide) rfl⟩

/-- C3.  When the output path's extension maps to WebP, two requests
differing only in quality produce identical runs of
`perform_compression`: the same outcome and the same effect trace, so
the quality value influences neither the encoder invocation nor the
bytes written. -/
theorem spec_C3 (env : Env) (inp out : RustPath) (q1 q2 : Nat)
    (hfmt : targetFormat out = some ImageFormat.WebP) :
    perform_compression env ⟨inp, out, q1⟩ =
      perform_compression env ⟨inp, out, q2⟩ := by
  unfold perform_compression
  cases env.openImage inp with
  | error e => rfl
  | ok img => rw [hfmt]; rfl

/-- C3 witness: qualities 1 and 100 give identical outcomes and traces
for a `.webp` output. -/
theorem spec_C3_witness :
    targetFormat ⟨["out.webp"]⟩ = some ImageFormat.WebP ∧
    perform_compression envOk ⟨⟨["in.png"]⟩, ⟨["out.webp"]⟩, 1⟩ =
      perform_compression envOk ⟨⟨["in.png"]⟩, ⟨["out.webp"]⟩, 100⟩ :=
  ⟨by decide,
    spec_C3 envOk ⟨["in.png"]⟩ ⟨["out.webp"]⟩ 1 100 (by decide)⟩

/-- C4.  The UI is a two-state machine on the busy flag, initially idle:
a Compress click emits a request only when both paths are set and the
flag is clear, and then sets the flag and the status "Compressing...";
a click while disabled changes nothing; receiving an outcome clears the
flag and installs the outcome's payload as the status; no other
interaction changes the flag. -/
theorem spec_C4 :
    UIState.init.is_compressing = false ∧
    (∀ s : UIState, (s.step UIEvent.clickCompress).2 ≠ [] →
      s.input_path.isSome = true ∧ s.output_path.isSome = true ∧
      s.is_compressing = false) ∧
    (∀ s : UIState,
      s.input_path.isSome = true → s.output_path.isSome = true →
      s.is_compressing = false →
      (s.step UIEvent.clickCompress).1.is_compressing = true ∧
      (s.step UIEvent.clickCompress).1.status_message = "Compressing...") ∧
    (∀ s : UIState,
      (s.input_path.isSome && s.output_path.isSome && !s.is_compressing)
          = false →
      s.step UIEvent.clickCompress = (s, [])) ∧
    (∀ (s : UIState) (m : String),
      (s.step (UIEvent.pollResult (.ok m))).1.is_compressing = false ∧
      (s.step (UIEvent.pollResult (.ok m))).1.status_message = m) ∧
    (∀ (s : UIState) (msg : String),
      (s.step (UIEvent.pollResult (.error msg))).1.is_compressing = false ∧
      (s.step (UIEvent.pollResult (.error msg))).1.status_message = msg) ∧
    (∀ (s : UIState) (p : RustPath),
      (s.step (UIEvent.pickInput p)).1.is_compressing = s.is_compressing ∧
      (s.step (UIEvent.pickOutput p)).1.is_compressing = s.is_compressing) ∧
    (∀ (s : UIState) (q : Int),
      (s.step (UIEvent.setQuality q)).1.is_compressing = s.is_compressing) :=
  by
  refine ⟨rfl, ?_, ?_, ?_, ?_, ?_, ?_, ?_⟩
  · intro s hne
    by_cases hg :
        (s.input_path.isSome && s.output_path.isSome && !s.is_compressing)
          = true
    · simp only [Bool.and_eq_true, Bool.not_eq_true'] at hg
      exact ⟨hg.1.1, hg.1.2, hg.2⟩
    · rw [Bool.not_eq_true] at hg
      exact absurd (by simp [UIState.step, hg]) hne
  · intro s h1 h2 h3
    obtain ⟨i, hi⟩ := Option.isSome_iff_exists.mp h1
    obtain ⟨o, ho⟩ := Option.isSome_iff_exists.mp h2
    simp [UIState.step, hi, ho, h3]
  · intro s hg
    simp [UIState.step, hg]
  · intro s m
    exact ⟨rfl, rfl⟩
  · intro s msg
    exact ⟨rfl, rfl⟩
  · intro s p
    exact ⟨rfl, rfl⟩
  · intro s q
    rfl

/-- A concrete idle state with both paths chosen. -/
def sReady : UIState :=
  ⟨some ⟨["a.png"]⟩, some ⟨["b.jpg"]⟩, 80, "Ready", false⟩

/-- A concrete busy state. -/
def sBusy : UIState :=
  ⟨some ⟨["a.png"]⟩, some ⟨["b.jpg"]⟩, 80, "Compressing...", true⟩

/-- C4 witness: from a state with both paths set and idle, a click sets
the busy flag and the "Compressing..." status, and a delivered outcome
clears the flag again. -/
theorem spec_C4_witness :
    (sReady.step UIEvent.clickCompress).1.is_compressing = true ∧
    (sReady.step UIEvent.clickCompress).1.status_message
      = "Compressing..." ∧
    (sBusy.step (UIEvent.pollResult
      (.ok "Success: saved to b.jpg"))).1.is_compressing = false :=
  ⟨(spec_C4.2.2.1 sReady rfl rfl rfl).1,
    (spec_C4.2.2.1 sReady rfl rfl rfl).2,
    (spec_C4.2.2.2.2.1 sBusy "Success: saved to b.jpg").1⟩

/-- An environment whose decoder fails with reason "boom". -/
def envNoDecode : Env :=
  { envOk with openImage := fun _ => .error "boom" }

/-- C5 counterexample: when decoding fails with reason "boom" the
outcome message is `Error loading image: boom`, which is not the
message `Error: loading image: boom` that the claim prescribes (there
is no colon after "Error" in the code's format string). -/
theorem spec_C5_cex :
    (perform_compression envNoDecode
        ⟨⟨["missing.png"]⟩, ⟨["out.jpg"]⟩, 80⟩).1 =
      .error "Error loading image: boom" ∧
    "Error loading image: boom" ≠ "Error: loading image: boom" := by
  exact ⟨rfl, by decide⟩

/-- C5 (amended).  When the input file fails to decode,
`perform_compression` returns the failure outcome
`Error loading image: <reason>` with the decoder's error text as the
reason, and performs no effect at all — in particular no output file is
created. -/
theorem spec_C5_amended (env : Env) (task : CompressionTask)
    (msg : String) (h : env.openImage task.input_path = .error msg) :
    perform_compression env task =
      (.error ("Error loading image: " ++ msg), []) := by
  simp [perform_compression, h]

/-- C5 witness: the amended statement at the concrete failing
environment. -/
theorem spec_C5_witness :
    perform_compression envNoDecode ⟨⟨["missing.png"]⟩, ⟨["out.jpg"]⟩, 80⟩ =
      (.error ("Error loading image: " ++ "boom"), []) :=
  spec_C5_amended envNoDecode ⟨⟨["missing.png"]⟩, ⟨["out.jpg"]⟩, 80⟩
    "boom" rfl

/-- C6.  When the selected encoder run succeeds the outcome is
`Success: saved to <output path>`; when it fails with reason `e` the
outcome is `Error saving image: <e>`; and the worker converts every
request into exactly one outcome by running `perform_compression`,
which is a total function — no fault escapes it. -/
theorem spec_C6 :
    (∀ (env : Env) (task : CompressionTask) (img : DynamicImage)
        (fmt : ImageFormat) (tr : List Effect),
      env.openImage task.input_path = .ok img →
      targetFormat task.output_path = some fmt →
      runSave env img task fmt = some (.ok (), tr) →
      perform_compression env task =
        (.ok ("Success: saved to " ++ task.output_path.display), tr)) ∧
    (∀ (env : Env) (task : CompressionTask) (img : DynamicImage)
        (fmt : ImageFormat) (msg : String) (tr : List Effect),
      env.openImage task.input_path = .ok img →
      targetFormat task.output_path = some fmt →
      runSave env img task fmt = some (.error msg, tr) →
      perform_compression env task =
        (.error ("Error saving image: " ++ msg), tr)) ∧
    (∀ (env : Env) (tasks : List CompressionTask),
      workerRun env tasks =
        tasks.map (fun t => (perform_compression env t).1) ∧
      (workerRun env tasks).length = tasks.length) := by
  refine ⟨?_, ?_, ?_⟩
  · intro env task img fmt tr hopen hfmt hrun
    simp [perform_compression, hopen, hfmt, hrun]
  · intro env task img fmt msg tr hopen hfmt hrun
    simp [perform_compression, hopen, hfmt, hrun]
  · intro env tasks
    exact ⟨rfl, List.length_map _ _⟩

/-- An environment whose JPEG encoder back end fails with "disk full". -/
def envDiskFull : Env :=
  { envOk with jpegBackend := fun _ _ => .error "disk full" }

/-- C6 witness: a succeeding JPEG run yields the success message, and a
failing one yields the saving-error message. -/
theorem spec_C6_witness :
    perform_compression envOk ⟨⟨["in.png"]⟩, ⟨["out.jpg"]⟩, 50⟩ =
      (.ok ("Success: saved to " ++ RustPath.display ⟨["out.jpg"]⟩),
        [Effect.createOutput ⟨["out.jpg"]⟩, Effect.jpegEncode imgSample 50]) ∧
    perform_compression envDiskFull ⟨⟨["in.png"]⟩, ⟨["out.jpg"]⟩, 50⟩ =
      (.error ("Error saving image: " ++ "disk full"),
        [Effect.createOutput ⟨["out.jpg"]⟩, Effect.jpegEncode imgSample 50]) :=
  ⟨spec_C6.1 envOk ⟨⟨["in.png"]⟩, ⟨["out.jpg"]⟩, 50⟩ imgSample
      ImageFormat.Jpeg _ rfl (by decide) rfl,
    spec_C6.2.1 envDiskFull ⟨⟨["in.png"]⟩, ⟨["out.jpg"]⟩, 50⟩ imgSample
      ImageFormat.Jpeg "disk full" _ rfl (by decide) rfl⟩

/-- C7.  With a decodable input and an output path whose (lowercased)
extension is missing or not in the supported set, `perform_compression`
returns exactly `Error: unsupported format. Use .jpg, .png, or .webp`
with an empty effect trace: in particular `File::create` is never
invoked on the output path, so no file is created or truncated. -/
theorem spec_C7 (env : Env) (task : CompressionTask) (img : DynamicImage)
    (hopen : env.openImage task.input_path = .ok img)
    (hext : ∀ s : String,
      ((task.output_path.extension).map toLowercase) = some s →
      s ≠ "jpg" ∧ s ≠ "jpeg" ∧ s ≠ "png" ∧ s ≠ "webp") :
    perform_compression env task =
      (.error "Error: unsupported format. Use .jpg, .png, or .webp", []) ∧
    ∀ p : RustPath,
      Effect.createOutput p ∉ (perform_compression env task).2 := by
  have hfmt : targetFormat task.output_path = none := by
    unfold targetFormat
    cases hm : ((task.output_path.extension).map toLowercase) with
    | none => rfl
    | some s =>
      obtain ⟨h1, h2, h3, h4⟩ := hext s hm
      simp [h1, h2, h3, h4]
  have hres : perform_compression env task =
      (.error "Error: unsupported format. Use .jpg, .png, or .webp", []) := by
    simp [perform_compression, hopen, hfmt]
  exact ⟨hres, fun p => by simp [hres]⟩

/-- C7 witness: a `.gif` output with a decodable input gives exactly the
unsupported-format outcome and an empty trace. -/
theorem spec_C7_witness :
    perform_compression envOk ⟨⟨["photo.png"]⟩, ⟨["d", "photo.gif"]⟩, 80⟩ =
      (.error "Error: unsupported format. Use .jpg, .png, or .webp", []) ∧
    ∀ p : RustPath,
      Effect.createOutput p ∉
        (perform_compression envOk
          ⟨⟨["photo.png"]⟩, ⟨["d", "photo.gif"]⟩, 80⟩).2 :=
  spec_C7 envOk ⟨⟨["photo.png"]⟩, ⟨["d", "photo.gif"]⟩, 80⟩ imgSample rfl
    (by
      intro s hs
      have h : "gif" = s := Option.some.inj hs
      subst h
      decide)

/-- No string begins with both "Error" and "Success": the two status
classes are disjoint, since the first characters differ. -/
theorem error_success_disjoint (s : String) :
    starts_with s "Error" = true → starts_with s "Success" = true →
    False := by
  intro hE hS
  unfold starts_with at hE hS
  rw [show "Error".data = ['E', 'r', 'r', 'o', 'r'] from rfl] at hE
  rw [show "Success".data = ['S', 'u', 'c', 'c', 'e', 's', 's'] from rfl]
    at hS
  cases hd : s.data with
  | nil => rw [hd] at hE; exact absurd hE (by decide)
  | cons c cs =>
    rw [hd] at hE hS
    simp only [leadsWith, Bool.and_eq_true, beq_iff_eq] at hE hS
    exact absurd (hE.1.trans hS.1.symm) (by decide)

/-- C8.  The rendered status color is a pure function of the status
string's prefix: an "Error" prefix renders red, a "Success" prefix
renders green, anything else gray; two strings agreeing on both prefix
tests render the same color. -/
theorem spec_C8 :
    (∀ s : String, starts_with s "Error" = true →
      statusColor s = Color32.RED) ∧
    (∀ s : String, starts_with s "Success" = true →
      statusColor s = Color32.GREEN) ∧
    (∀ s : String, starts_with s "Error" = false →
      starts_with s "Success" = false → statusColor s = Color32.GRAY) ∧
    (∀ s t : String, starts_with s "Error" = starts_with t "Error" →
      starts_with s "Success" = starts_with t "Success" →
      statusColor s = statusColor t) := by
  refine ⟨?_, ?_, ?_, ?_⟩
  · intro s h
    simp [statusColor, h]
  · intro s h
    have hE : starts_with s "Error" = false := by
      cases hEq : starts_with s "Error" with
      | false => rfl
      | true => exact (error_success_disjoint s hEq h).elim
    simp [statusColor, hE, h]
  · intro s h1 h2
    simp [statusColor, h1, h2]
  · intro s t h1 h2
    unfold statusColor
    rw [h1, h2]

/-- C8 witness: the three concrete status strings of the three classes
render red, green and gray respectively, and the purity clause equates
two distinct error strings. -/
theorem spec_C8_witness :
    statusColor "Error saving image: disk full" = Color32.RED ∧
    statusColor "Success: saved to out.jpg" = Color32.GREEN ∧
    statusColor "Compressing..." = Color32.GRAY ∧
    statusColor "Error loading image: boom"
      = statusColor "Error: unsupported format" :=
  ⟨spec_C8.1 "Error saving image: disk full" rfl,
    spec_C8.2.1 "Success: saved to out.jpg" rfl,
    spec_C8.2.2.1 "Compressing..." rfl rfl,
    spec_C8.2.2.2 "Error loading image: boom" "Error: unsupported format"
      rfl rfl⟩

/-- The clamped slider value always lies in [1, 100]. -/
theorem clampQuality_bounds (q : Int) :
    1 ≤ clampQuality q ∧ clampQuality q ≤ 100 := by
  unfold clampQuality
  omega

/-- A Compress click never changes the quality value. -/
theorem click_preserves_quality (s : UIState) :
    (s.step UIEvent.clickCompress).1.quality = s.quality := by
  simp only [UIState.step]
  split
  · split <;> rfl
  · rfl

/-- Every single interaction keeps the quality value in [1, 100]. -/
theorem step_quality_bounds (s : UIState) (e : UIEvent)
    (h1 : 1 ≤ s.quality) (h2 : s.quality ≤ 100) :
    1 ≤ (s.step e).1.quality ∧ (s.step e).1.quality ≤ 100 := by
  cases e with
  | pollResult r => exact ⟨h1, h2⟩
  | pickInput p => exact ⟨h1, h2⟩
  | pickOutput p => exact ⟨h1, h2⟩
  | setQuality q => exact clampQuality_bounds q
  | clickCompress => rw [click_preserves_quality]; exact ⟨h1, h2⟩

/-- The quality bound is invariant under arbitrary interaction
sequences. -/
theorem run_quality_bounds (events : List UIEvent) :
    ∀ s : UIState, 1 ≤ s.quality → s.quality ≤ 100 →
    1 ≤ (s.run events).quality ∧ (s.run events).quality ≤ 100 := by
  induction events with
  | nil => intro s h1 h2; exact ⟨h1, h2⟩
  | cons e es ih =>
    intro s h1 h2
    have h := step_quality_bounds s e h1 h2
    exact ih _ h.1 h.2

/-- C9.  The quality value starts at 80, the slider writes the clamped
value into the state, the value stays in [1, 100] under every
interaction sequence from launch, and every emitted request carries the
state's quality at submit time. -/
theorem spec_C9 :
    UIState.init.quality = 80 ∧
    (∀ (s : UIState) (q : Int),
      (s.step (UIEvent.setQuality q)).1.quality = clampQuality q ∧
      1 ≤ clampQuality q ∧ clampQuality q ≤ 100) ∧
    (∀ events : List UIEvent,
      1 ≤ (UIState.init.run events).quality ∧
      (UIState.init.run events).quality ≤ 100) ∧
    (∀ (s : UIState) (t : CompressionTask),
      t ∈ (s.step UIEvent.clickCompress).2 → t.quality = s.quality) := by
  refine ⟨rfl, ?_, ?_, ?_⟩
  · intro s q
    exact ⟨rfl, clampQuality_bounds q⟩
  · intro events
    exact run_quality_bounds events UIState.init (by decide) (by decide)
  · intro s t ht
    simp only [UIState.step] at ht
    split at ht
    · split at ht
      · simp only [List.mem_singleton] at ht
        rw [ht]
      · simp at ht
    · simp at ht

/-- C9 witness: after dragging the slider far beyond the range the
value is clamped to 100, and the request emitted from a concrete ready
state carries that state's quality. -/
theorem spec_C9_witness :
    1 ≤ (UIState.init.run [UIEvent.setQuality 500]).quality ∧
    (UIState.init.run [UIEvent.setQuality 500]).quality ≤ 100 ∧
    (CompressionTask.mk ⟨["a.png"]⟩ ⟨["b.jpg"]⟩ 80).quality
      = sReady.quality :=
  ⟨(spec_C9.2.2.1 [UIEvent.setQuality 500]).1,
    (spec_C9.2.2.1 [UIEvent.setQuality 500]).2,
    spec_C9.2.2.2 sReady ⟨⟨["a.png"]⟩, ⟨["b.jpg"]⟩, 80⟩ (by decide)⟩

/-- The first `match` only ever selects one of the three supported
formats: the extra `ImageFormat` variants are never chosen. -/
theorem targetFormat_supported (p : RustPath) (fmt : ImageFormat)
    (h : targetFormat p = some fmt) :
    fmt = ImageFormat.Jpeg ∨ fmt = ImageFormat.Png ∨
    fmt = ImageFormat.WebP := by
  unfold targetFormat at h
  split at h
  · exact absurd h (by simp)
  · split_ifs at h with h1 h2 h3
    · exact Or.inl (Option.some.inj h).symm
    · exact Or.inr (Or.inl (Option.some.inj h).symm)
    · exact Or.inr (Or.inr (Option.some.inj h).symm)

/-- A loading-error message never equals the bare fallback string: it
begins with "Error " where the fallback has "Error:". -/
theorem load_msg_ne_bare (msg : String) :
    "Error loading image: " ++ msg ≠ "Error: unsupported format" := by
  intro h
  have h1 : starts_with ("Error loading image: " ++ msg) "Error " = true :=
    rfl
  rw [h] at h1
  exact absurd h1 (by decide)

/-- A saving-error message never equals the bare fallback string. -/
theorem save_msg_ne_bare (msg : String) :
    "Error saving image: " ++ msg ≠ "Error: unsupported format" := by
  intro h
  have h1 : starts_with ("Error saving image: " ++ msg) "Error " = true :=
    rfl
  rw [h] at h1
  exact absurd h1 (by decide)

/-- When the selected encoder run succeeds, the outcome is the success
message with the effect trace of the run. -/
theorem perform_ok (env : Env) (task : CompressionTask)
    (img : DynamicImage) (fmt : ImageFormat) (tr : List Effect)
    (hopen : env.openImage task.input_path = Except.ok img)
    (hfmt : targetFormat task.output_path = some fmt)
    (hrun : runSave env img task fmt = some (Except.ok (), tr)) :
    perform_compression env task =
      (Except.ok ("Success: saved to " ++ task.output_path.display), tr) := by
  simp [perform_compression, hopen, hfmt, hrun]

/-- When the selected encoder run fails, the outcome is the
saving-error message with the effect trace of the run. -/
theorem perform_saveErr (env : Env) (task : CompressionTask)
    (img : DynamicImage) (fmt : ImageFormat) (msg : String)
    (tr : List Effect)
    (hopen : env.openImage task.input_path = Except.ok img)
    (hfmt : targetFormat task.output_path = some fmt)
    (hrun : runSave env img task fmt = some (Except.error msg, tr)) :
    perform_compression env task =
      (Except.error ("Error saving image: " ++ msg), tr) := by
  simp [perform_compression, hopen, hfmt, hrun]

/-- Once a supported format is selected and its save function has run,
the outcome is never the bare fallback string and always has one of the
documented shapes. -/
theorem perform_shape_of_save (env : Env) (task : CompressionTask)
    (img : DynamicImage) (fmt : ImageFormat)
    (sres : Except String Unit × List Effect)
    (hopen : env.openImage task.input_path = Except.ok img)
    (hfmt : targetFormat task.output_path = some fmt)
    (hrun : runSave env img task fmt = some sres) :
    (perform_compression env task).1 ≠
      Except.error "Error: unsupported format" ∧
    ((∃ msg, (perform_compression env task).1 =
        Except.error ("Error loading image: " ++ msg)) ∨
      (perform_compression env task).1 =
        Except.error "Error: unsupported format. Use .jpg, .png, or .webp" ∨
      (∃ msg, (perform_compression env task).1 =
        Except.error ("Error saving image: " ++ msg)) ∨
      (perform_compression env task).1 =
        Except.ok ("Success: saved to " ++ task.output_path.display)) := by
  rcases sres with ⟨res, tr⟩
  cases res with
  | ok u =>
    have h := perform_ok env task img fmt tr hopen hfmt (by rw [hrun])
    rw [h]
    exact ⟨by simp, Or.inr (Or.inr (Or.inr rfl))⟩
  | error msg =>
    have h := perform_saveErr env task img fmt msg tr hopen hfmt
      (by rw [hrun])
    rw [h]
    exact ⟨fun hh => save_msg_ne_bare msg (Except.error.inj hh),
      Or.inr (Or.inr (Or.inl ⟨msg, rfl⟩))⟩

/-- C10.  The catch-all arm of the format dispatch is unreachable: no
run of `perform_compression` ever returns the bare string
`Error: unsupported format`, and every outcome has one of the four
documented forms. -/
theorem spec_C10 (env : Env) (task : CompressionTask) :
    (perform_compression env task).1 ≠
      Except.error "Error: unsupported format" ∧
    ((∃ msg, (perform_compression env task).1 =
        Except.error ("Error loading image: " ++ msg)) ∨
      (perform_compression env task).1 =
        Except.error "Error: unsupported format. Use .jpg, .png, or .webp" ∨
      (∃ msg, (perform_compression env task).1 =
        Except.error ("Error saving image: " ++ msg)) ∨
      (perform_compression env task).1 =
        Except.ok ("Success: saved to " ++ task.output_path.display)) := by
  cases hopen : env.openImage task.input_path with
  | error msg =>
    have hres : perform_compression env task =
        (Except.error ("Error loading image: " ++ msg), []) := by
      simp [perform_compression, hopen]
    rw [hres]
    exact ⟨fun h => load_msg_ne_bare msg (Except.error.inj h),
      Or.inl ⟨msg, rfl⟩⟩
  | ok img =>
    cases hfmt : targetFormat task.output_path with
    | none =>
      have hres : perform_compression env task =
          (Except.error
            "Error: unsupported format. Use .jpg, .png, or .webp", []) := by
        simp [perform_compression, hopen, hfmt]
      rw [hres]
      exact ⟨fun h => absurd (Except.error.inj h) (by decide),
        Or.inr (Or.inl rfl)⟩
    | some fmt =>
      rcases targetFormat_supported task.output_path fmt hfmt
        with h | h | h <;> subst h
      · exact perform_shape_of_save env task img _ _ hopen hfmt rfl
      · exact perform_shape_of_save env task img _ _ hopen hfmt rfl
      · exact perform_shape_of_save env task img _ _ hopen hfmt rfl

/-- C10 witness: the shape property instantiated at a concrete run. -/
theorem spec_C10_witness :
    (perform_compression envOk ⟨⟨["in.png"]⟩, ⟨["out.jpg"]⟩, 50⟩).1 ≠
      Except.error "Error: unsupported format" ∧
    ((∃ msg,
        (perform_compression envOk ⟨⟨["in.png"]⟩, ⟨["out.jpg"]⟩, 50⟩).1 =
        Except.error ("Error loading image: " ++ msg)) ∨
      (perform_compression envOk ⟨⟨["in.png"]⟩, ⟨["out.jpg"]⟩, 50⟩).1 =
        Except.error "Error: unsupported format. Use .jpg, .png, or .webp" ∨
      (∃ msg,
        (perform_compression envOk ⟨⟨["in.png"]⟩, ⟨["out.jpg"]⟩, 50⟩).1 =
        Except.error ("Error saving image: " ++ msg)) ∨
      (perform_compression envOk ⟨⟨["in.png"]⟩, ⟨["out.jpg"]⟩, 50⟩).1 =
        Except.ok ("Success: saved to " ++
          RustPath.display ⟨["out.jpg"]⟩)) :=
  spec_C10 envOk ⟨⟨["in.png"]⟩, ⟨["out.jpg"]⟩, 50⟩
